import Mathlib

/-!
Verification development for the checkout-to-order reconciliation pipeline of
a retail storefront.  The definitions below are shallow embeddings of the
TypeScript source files:

* `src/lib/supabaseClient.ts` (`CartProvider`): the client-side cart store.
* `supabase/functions/create-checkout-session/index.ts`: the checkout
  session initiator edge function.
* `supabase/functions/stripe-webhook/index.ts`: the payment callback
  handler edge function.
* `src/app/checkout/success/...` (`SuccessInner`): the post-redirect
  order reconciliation reader.
* the seller sales page (`SellerSalesPage`): the generation-guarded
  order-list loader.

Machine numbers in the source are JavaScript numbers used only at integer
values; they are modelled as `Int` (quantities, minor-unit prices).
Nullable fields are `Option`; free-form string records are association
lists `List (String × String)`.
-/

/-! ## Cart store (`src/lib/supabaseClient.ts`, `CartProvider`) -/

/-- Structure `CartItem` from `src/lib/supabaseClient.ts`: `quantity` is optional in the
source (`quantity?: number`), `meta` is an optional string record. -/
structure CartItem where
  id : String
  name : String
  price_cents : Int
  quantity : Option Int
  image : Option String
  meta : Option (List (String × String))
deriving Repr, DecidableEq

/-- Association-list lookup, the reading semantics of a JS object field. -/
def recLookup (m : List (String × String)) (k : String) : Option String :=
  (m.find? (fun p => p.1 = k)).map (fun p => p.2)

/-- JS object spread `{ ...a, ...b }`: keys of `a` keep their place with `b`'s
value when `b` also has the key; keys only in `b` are appended. -/
def recMerge (a b : List (String × String)) : List (String × String) :=
  a.map (fun p =>
    match recLookup b p.1 with
    | some v => (p.1, v)
    | none => p)
  ++ b.filter (fun q => recLookup a q.1 = none)

/-- Function `addItem` from `CartProvider` (lines 84-99 of
`src/lib/supabaseClient.ts`): the functional update applied to the previous
items list.  `findIndex` locates the first line with the same id; if found,
its quantity becomes `(prev.quantity ?? 1) + (item.quantity ?? 1)` and its
`meta` becomes `{ ...(prev.meta ?? {}), ...(item.meta ?? {}) }`; otherwise
the item is appended with `quantity = item.quantity ?? 1`. -/
def addItem : List CartItem → CartItem → List CartItem
  | [], item => [{ item with quantity := some (item.quantity.getD 1) }]
  | p :: ps, item =>
    if p.id = item.id then
      { p with
        quantity := some (p.quantity.getD 1 + item.quantity.getD 1),
        meta := some (recMerge (p.meta.getD []) (item.meta.getD [])) } :: ps
    else
      p :: addItem ps item

/-- Function `removeItem` from `CartProvider` (lines 101-103): filter out the id. -/
def removeItem (items : List CartItem) (id : String) : List CartItem :=
  items.filter (fun p => p.id ≠ id)

/-- The first cart line carrying a given id (the line `findIndex` sees). -/
def findLine (items : List CartItem) (id : String) : Option CartItem :=
  items.find? (fun p => p.id = id)

/-! ## Lemmas about `addItem` -/

theorem addItem_countP_of_found (items : List CartItem) (item : CartItem)
    (ℓ : CartItem) (hfound : findLine items item.id = some ℓ) (id : String) :
    (addItem items item).countP (fun p => p.id = id)
      = items.countP (fun p => p.id = id) := by
  induction items with
  | nil => simp [findLine] at hfound
  | cons p ps ih =>
    by_cases hp : p.id = item.id
    · simp [addItem, hp, List.countP_cons]
    · have hfound' : findLine ps item.id = some ℓ := by
        simpa [findLine, List.find?, hp] using hfound
      simp [addItem, hp, List.countP_cons, ih hfound']

theorem addItem_length_of_found (items : List CartItem) (item : CartItem)
    (ℓ : CartItem) (hfound : findLine items item.id = some ℓ) :
    (addItem items item).length = items.length := by
  induction items with
  | nil => simp [findLine] at hfound
  | cons p ps ih =>
    by_cases hp : p.id = item.id
    · simp [addItem, hp]
    · have hfound' : findLine ps item.id = some ℓ := by
        simpa [findLine, List.find?, hp] using hfound
      simp [addItem, hp, ih hfound']

theorem addItem_findLine_merge (items : List CartItem) (item : CartItem)
    (ℓ : CartItem) (hfound : findLine items item.id = some ℓ) :
    findLine (addItem items item) item.id
      = some { ℓ with
          quantity := some (ℓ.quantity.getD 1 + item.quantity.getD 1),
          meta := some (recMerge (ℓ.meta.getD []) (item.meta.getD [])) } := by
  induction items with
  | nil => simp [findLine] at hfound
  | cons p ps ih =>
    by_cases hp : p.id = item.id
    · have hℓ : ℓ = p := by
        simp [findLine, List.find?, hp] at hfound
        exact hfound.symm
      subst hℓ
      simp [addItem, hp, findLine, List.find?]
    · have hfound' : findLine ps item.id = some ℓ := by
        simpa [findLine, List.find?, hp] using hfound
      have := ih hfound'
      simpa [addItem, hp, findLine, List.find?] using this

theorem addItem_findLine_new (items : List CartItem) (item : CartItem)
    (hnew : findLine items item.id = none) :
    addItem items item
      = items ++ [{ item with quantity := some (item.quantity.getD 1) }] := by
  induction items with
  | nil => simp [addItem]
  | cons p ps ih =>
    by_cases hp : p.id = item.id
    · simp [findLine, List.find?, hp] at hnew
    · have hnew' : findLine ps item.id = none := by
        simpa [findLine, List.find?, hp] using hnew
      simp [addItem, hp, ih hnew']

theorem recLookup_nil (k : String) : recLookup [] k = none := rfl

theorem recLookup_cons (q : String × String) (qs : List (String × String))
    (k : String) :
    recLookup (q :: qs) k = if q.1 = k then some q.2 else recLookup qs k := by
  by_cases hq : q.1 = k <;> simp [recLookup, List.find?, hq]

theorem recLookup_append (x y : List (String × String)) (k : String) :
    recLookup (x ++ y) k = (recLookup x k).orElse (fun _ => recLookup y k) := by
  induction x with
  | nil => simp [recLookup_nil]
  | cons p ps ih =>
    by_cases hp : p.1 = k
    · simp [recLookup_cons, hp]
    · simp [recLookup_cons, hp, ih]

theorem recLookup_overlay (a b : List (String × String)) (k : String) :
    recLookup (a.map (fun p =>
        match recLookup b p.1 with
        | some v => (p.1, v)
        | none => p)) k
      = match recLookup a k with
        | some v => some ((recLookup b k).getD v)
        | none => none := by
  induction a with
  | nil => simp [recLookup_nil]
  | cons p ps ih =>
    simp only [List.map_cons]
    cases hb : recLookup b p.1 with
    | none =>
      by_cases hp : p.1 = k
      · subst hp
        simp [recLookup_cons, hb]
      · simp [recLookup_cons, hp, ih]
    | some v =>
      by_cases hp : p.1 = k
      · subst hp
        simp [recLookup_cons, hb]
      · simp [recLookup_cons, hp, ih]

theorem recLookup_filter_of_keeps (b : List (String × String))
    (pred : String × String → Bool) (k : String)
    (hkeep : ∀ q : String × String, q.1 = k → pred q = true) :
    recLookup (b.filter pred) k = recLookup b k := by
  induction b with
  | nil => simp
  | cons q qs ih =>
    by_cases hq : q.1 = k
    · simp [List.filter_cons, hkeep q hq, recLookup_cons, hq]
    · cases hpred : pred q <;>
        simp [List.filter_cons, hpred, recLookup_cons, hq, ih]

/-- Lookup in a merged record: the new record's keys override. -/
theorem recMerge_lookup (a b : List (String × String)) (k : String) :
    recLookup (recMerge a b) k
      = (recLookup b k).orElse (fun _ => recLookup a k) := by
  unfold recMerge
  rw [recLookup_append, recLookup_overlay]
  cases ha : recLookup a k with
  | some v =>
    cases hb : recLookup b k <;> simp [Option.orElse, hb]
  | none =>
    have hkeep : ∀ q : String × String, q.1 = k →
        (decide (recLookup a q.1 = none)) = true := by
      intro q hq
      rw [hq, ha]
      simp
    rw [recLookup_filter_of_keeps b _ k hkeep]
    cases hb : recLookup b k <;> simp [Option.orElse]

/-! ## Payment callback handler (`supabase/functions/stripe-webhook/index.ts`) -/

/-- JS nullish coalescing `a ?? b` on nullable values. -/
def jsCoalesce {α : Type} (a b : Option α) : Option α :=
  match a with
  | some x => some x
  | none => b

/-- The `Stripe.Address` fields read by the webhook. -/
structure StAddress where
  line1 : Option String
  line2 : Option String
  city : Option String
  state : Option String
  postal_code : Option String
  country : Option String
deriving Repr, DecidableEq

/-- Shape shared by `session.customer_details` and `session.shipping_details`
as read by the webhook: name, phone, address. -/
structure StDetails where
  name : Option String
  phone : Option String
  address : Option StAddress
deriving Repr, DecidableEq

/-- The product metadata keys the pipeline uses (attached at session-creation
time, read back by the webhook). -/
structure StMetadata where
  product_id : Option String
  slug : Option String
  seller_id : Option String
deriving Repr, DecidableEq

/-- Expanded `Stripe.Product` fields read by the webhook. -/
structure StProduct where
  name : Option String
  images : List String
  metadata : StMetadata
deriving Repr, DecidableEq

/-- The `li.price` fields read by the webhook. -/
structure StPrice where
  unit_amount : Option Int
  product : Option StProduct
deriving Repr, DecidableEq

/-- One expanded checkout line item as the webhook reads it. -/
structure StLineItem where
  quantity : Option Int
  price : Option StPrice
  description : Option String
deriving Repr, DecidableEq

/-- The `Stripe.Checkout.Session` fields read by the webhook. -/
structure StSession where
  id : String
  payment_intent : Option String
  currency : Option String
  amount_total : Option Int
  metadata_user_id : Option String
  customer_details : Option StDetails
  shipping_details : Option StDetails
deriving Repr, DecidableEq

/-- A verified provider event: its type string and the session payload. -/
structure StEvent where
  type : String
  session : StSession
deriving Repr, DecidableEq

/-- Function `splitName` from the webhook: trim, split on whitespace runs; empty input
gives two nulls, a single token gives a null last name, otherwise the tail is
rejoined with single spaces.  (The empty-parts case is unreachable for a
nonempty trimmed string; it is totalized to two nulls.) -/
def splitName (full : Option String) : Option String × Option String :=
  let s := (full.getD "").trim
  if s = "" then (none, none)
  else
    let parts := (s.split (fun c => c.isWhitespace)).filter (fun t => t ≠ "")
    match parts with
    | [] => (none, none)
    | [one] => (some one, none)
    | w :: rest => (some w, some (String.intercalate " " rest))

/-- A row of the `orders` table as the webhook inserts it. -/
structure OrderRow where
  id : Nat
  stripe_session_id : String
  stripe_payment_intent : Option String
  currency : String
  user_id : Option String
  amount_cents : Int
  status : String
  first_name : Option String
  last_name : Option String
  phone : Option String
  address_line1 : Option String
  address_line2 : Option String
  city : Option String
  state : Option String
  postal_code : Option String
  country : Option String
deriving Repr, DecidableEq

/-- A row of the `order_items` table as the webhook inserts it. -/
structure OrderItemRow where
  order_id : Nat
  product_slug : Option String
  title : String
  qty : Int
  price_cents : Int
  seller_id : Option String
  image_url : Option String
deriving Repr, DecidableEq

/-- The durable store: `orders` and `order_items` tables plus the generator
for server-assigned order ids. -/
structure Db where
  orders : List OrderRow
  order_items : List OrderItemRow
  nextOrderId : Nat
deriving Repr, DecidableEq

/-- Modelled from the spec: the data layer enforces a uniqueness constraint
on `externalSessionId` (`orders.stripe_session_id`); the schema itself is
not under the source tree.  Inserting a row whose session id is already
present fails (the `orderErr` branch of the webhook) and leaves the table
unchanged; otherwise the row is appended with a fresh server-generated id. -/
def Db.insertOrder (db : Db) (mk : Nat → OrderRow) : Db × Option OrderRow :=
  let row := mk db.nextOrderId
  if db.orders.any (fun r => r.stripe_session_id = row.stripe_session_id) then
    (db, none)
  else
    ({ db with
        orders := db.orders ++ [row],
        nextOrderId := db.nextOrderId + 1 }, some row)

/-- The `orders` row the webhook builds from a completed session (lines
57-89 of `stripe-webhook/index.ts`), given the server-generated id. -/
def orderRowOfSession (session : StSession) (oid : Nat) : OrderRow :=
  let shipping := session.shipping_details
  let customer := session.customer_details
  let nm := splitName (jsCoalesce (shipping.bind (fun d => d.name))
    (customer.bind (fun d => d.name)))
  { id := oid
    stripe_session_id := session.id
    stripe_payment_intent := session.payment_intent
    currency := session.currency.getD "gbp"
    user_id := session.metadata_user_id
    amount_cents := session.amount_total.getD 0
    status := "paid"
    first_name := nm.1
    last_name := nm.2
    phone := jsCoalesce (shipping.bind (fun d => d.phone))
      (customer.bind (fun d => d.phone))
    address_line1 := jsCoalesce
      ((shipping.bind (fun d => d.address)).bind (fun a => a.line1))
      ((customer.bind (fun d => d.address)).bind (fun a => a.line1))
    address_line2 := jsCoalesce
      ((shipping.bind (fun d => d.address)).bind (fun a => a.line2))
      ((customer.bind (fun d => d.address)).bind (fun a => a.line2))
    city := jsCoalesce
      ((shipping.bind (fun d => d.address)).bind (fun a => a.city))
      ((customer.bind (fun d => d.address)).bind (fun a => a.city))
    state := jsCoalesce
      ((shipping.bind (fun d => d.address)).bind (fun a => a.state))
      ((customer.bind (fun d => d.address)).bind (fun a => a.state))
    postal_code := jsCoalesce
      ((shipping.bind (fun d => d.address)).bind (fun a => a.postal_code))
      ((customer.bind (fun d => d.address)).bind (fun a => a.postal_code))
    country := jsCoalesce
      ((shipping.bind (fun d => d.address)).bind (fun a => a.country))
      ((customer.bind (fun d => d.address)).bind (fun a => a.country)) }

/-- The `order_items` row the webhook builds from one line item (lines
101-124): metadata comes from the expanded price product; an empty or absent
`seller_id` string is falsy in JS and becomes null. -/
def orderItemRowOf (orderId : Nat) (li : StLineItem) : OrderItemRow :=
  let product := li.price.bind (fun pr => pr.product)
  let meta := (product.map (fun pr => pr.metadata)).getD ⟨none, none, none⟩
  { order_id := orderId
    product_slug := meta.slug
    title := (jsCoalesce (product.bind (fun pr => pr.name)) li.description).getD "Item"
    qty := li.quantity.getD 1
    price_cents := (li.price.bind (fun pr => pr.unit_amount)).getD 0
    seller_id := match meta.seller_id with
      | some s => if s = "" then none else some s
      | none => none
    image_url := product.bind (fun pr => pr.images.head?) }

/-- The webhook's item loop (lines 101-132): a failing `order_items` insert
is logged and skipped, processing continues with the next line item.
`itemFail i` injects the environment-caused insert failure of the i-th item. -/
def processItems (orderId : Nat) (itemFail : Nat → Bool) :
    List StLineItem → Nat → List OrderItemRow
  | [], _ => []
  | li :: rest, i =>
    if itemFail i then processItems orderId itemFail rest (i + 1)
    else orderItemRowOf orderId li :: processItems orderId itemFail rest (i + 1)

/-- The three HTTP responses the webhook can produce. -/
inductive HResp where
  | missingSignature
  | badSignature
  | ok
deriving Repr, DecidableEq

/-- The HTTP status of each response (400, 400, 200 in the source). -/
def HResp.status : HResp → Nat
  | .missingSignature => 400
  | .badSignature => 400
  | .ok => 200

/-- Environment of one webhook invocation: the provider line-item listing
(`stripe.checkout.sessions.listLineItems(id, { limit })`, which may throw)
and the injected per-item insert failures. -/
structure WebhookEnv where
  listLineItems : String → Nat → Except String (List StLineItem)
  itemInsertFails : Nat → Bool

/-- The webhook `serve` body (`stripe-webhook/index.ts`, lines 28-141):
missing signature header and signature-verification failure are the only
non-200 responses; a thrown line-item fetch, a failed order insert and
failed item inserts all still acknowledge with 200. -/
def handleWebhook (sig : Option String) (verify : String → Option StEvent)
    (env : WebhookEnv) (db : Db) : Db × HResp :=
  match sig with
  | none => (db, .missingSignature)
  | some s =>
    match verify s with
    | none => (db, .badSignature)
    | some event =>
      if event.type = "checkout.session.completed" then
        match env.listLineItems event.session.id 100 with
        | .error _ => (db, .ok)
        | .ok lineItems =>
          match db.insertOrder (orderRowOfSession event.session) with
          | (db1, none) => (db1, .ok)
          | (db1, some order) =>
            let newRows := processItems order.id env.itemInsertFails lineItems 0
            ({ db1 with order_items := db1.order_items ++ newRows }, .ok)
      else (db, .ok)

/-- The provider side of `listLineItems`: it returns at most `limit` items
of the session, and the handler never requests a further page. -/
def providerListLineItems (sessionItems : String → List StLineItem) :
    String → Nat → Except String (List StLineItem) :=
  fun id lim => .ok ((sessionItems id).take lim)

/-! ## Checkout session initiator
(`supabase/functions/create-checkout-session/index.ts`) -/

/-- An incoming cart item of the create-checkout-session request body. -/
structure Item where
  id : String
  slug : Option String
  name : String
  price_cents : Int
  quantity : Int
  image : Option String
  seller_id : Option String
deriving Repr, DecidableEq

/-- A catalog (`products` table) row as read by the slug lookup. -/
structure Product where
  slug : String
  seller_id : Option String
deriving Repr, DecidableEq

/-- JS falsiness of a nullable string: null, undefined and `""` are falsy. -/
def isFalsyStr : Option String → Bool
  | none => true
  | some s => s = ""

/-- The `products` lookup `select("seller_id").eq("slug", s).maybeSingle()`
followed by `p?.seller_id ?? null`. -/
def lookupSellerBySlug (catalog : List Product) (sl : String) : Option String :=
  (catalog.find? (fun p => p.slug = sl)).bind (fun p => p.seller_id)

/-- The per-item enhancement loop of create-checkout-session (lines 85-101):
when `seller_id` is falsy and `slug` is truthy, the catalog lookup result
replaces it (possibly with null); otherwise the item is kept as sent. -/
def enhanceItem (catalog : List Product) (i : Item) : Item :=
  let sellerId :=
    if isFalsyStr i.seller_id && !isFalsyStr i.slug then
      lookupSellerBySlug catalog (i.slug.getD "")
    else
      i.seller_id
  { i with seller_id := sellerId }

/-- The provider-native line-item record built for one enhanced item (lines
105-121): price data in minor units plus the per-line product metadata
`{product_id, slug, seller_id}` with nulls encoded as `""`. -/
structure LineItemParams where
  currency : String
  unit_amount : Int
  name : String
  images : List String
  metadata : StMetadata
  quantity : Int
deriving Repr, DecidableEq

/-- The map `enhanced.map((i) => (...))` from lines 105-121. -/
def toLineItemParams (i : Item) : LineItemParams :=
  { currency := "gbp"
    unit_amount := i.price_cents
    name := i.name
    images := match i.image with
      | some img => [img]
      | none => []
    metadata :=
      { product_id := some i.id
        slug := some (i.slug.getD "")
        seller_id := some (i.seller_id.getD "") }
    quantity := i.quantity }

/-- The parsed request body of create-checkout-session; `items = none`
models a body whose `items` field is not an array. -/
structure InitBody where
  items : Option (List Item)
  success_url : Option String
  cancel_url : Option String
  user_id : Option String
deriving Repr, DecidableEq

/-- The responses the initiator can produce. -/
inductive InitResp where
  | noItems
  | missingUrls
  | providerError (msg : String)
  | okUrl (url : Option String)
deriving Repr, DecidableEq

/-- HTTP status of each initiator response (400, 400, 400, 200). -/
def InitResp.status : InitResp → Nat
  | .noItems => 400
  | .missingUrls => 400
  | .providerError _ => 400
  | .okUrl _ => 200

/-- The POST body of the create-checkout-session `serve` handler (lines
45-169), with the provider call abstracted as `createSession` (it may
throw).  The returned Bool records whether external session creation was
attempted: the two validation failures return before any external call. -/
def createCheckoutSession (catalog : List Product)
    (createSession : List LineItemParams → Option String → Except String (Option String))
    (body : InitBody) : InitResp × Bool :=
  match body.items with
  | none => (.noItems, false)
  | some items =>
    if items.length = 0 then (.noItems, false)
    else if isFalsyStr body.success_url || isFalsyStr body.cancel_url then
      (.missingUrls, false)
    else
      let enhanced := items.map (enhanceItem catalog)
      let line_items := enhanced.map toLineItemParams
      match createSession line_items body.user_id with
      | .error e => (.providerError e, true)
      | .ok url => (.okUrl url, true)

/-! ## Order reconciliation reader
(`SuccessInner` of the checkout success page) -/

/-- The read-side view of the store used by the success page: the two
queries it issues. -/
structure ReadDb where
  orders : List OrderRow
  order_items : List OrderItemRow
deriving Repr, DecidableEq

/-- The query `orders ... .eq("stripe_session_id", sid).maybeSingle()`. -/
def queryOrderBySession (db : ReadDb) (sid : String) : Option OrderRow :=
  db.orders.find? (fun r => r.stripe_session_id = sid)

/-- The query `order_items ... .eq("order_id", oid)` (ordering by creation time is
the insertion order of the list). -/
def queryItemsByOrder (db : ReadDb) (oid : Nat) : List OrderItemRow :=
  db.order_items.filter (fun r => r.order_id = oid)

/-- Function `fetchOrderAndItems` of the success page (lines 74-120): look the order
up by session id; when absent return no order and no items, otherwise fetch
the order's items in a second read. -/
def fetchOrderAndItems (db : ReadDb) (sid : String) :
    Option OrderRow × List OrderItemRow :=
  match queryOrderBySession db sid with
  | none => (none, [])
  | some o => (some o, queryItemsByOrder db o.id)

/-- The retry count of the success-page loop (line 136 of the source). -/
def successAttempts : Nat := 6

/-- The inter-attempt delay in milliseconds (line 137 of the source). -/
def successDelayMs : Nat := 1200

/-- Terminal states of the success-page load. -/
inductive SuccessState where
  | confirmed (order : OrderRow) (items : List OrderItemRow)
  | stillProcessing
  | failed (msg : String)
deriving Repr, DecidableEq

/-- The retry loop of `SuccessInner.load` (lines 139-161): at most the given
number of attempts, each reading a fresh snapshot; a query error is thrown
to the catch (the `failed` state), a found order stops the loop, exhaustion
ends in the still-processing state. -/
def successLoop (fetch : Nat → Except String (Option OrderRow × List OrderItemRow)) :
    Nat → Nat → SuccessState
  | 0, _ => .stillProcessing
  | fuel + 1, i =>
    match fetch i with
    | .error e => .failed e
    | .ok (some o, items) => .confirmed o items
    | .ok (none, _) => successLoop fetch fuel (i + 1)

/-- Function `SuccessInner.load` for a present session id: six polls of
`fetchOrderAndItems` against the per-attempt store snapshot (a `.error`
snapshot models a query that throws). -/
def successLoad (snaps : Nat → Except String ReadDb) (sid : String) : SuccessState :=
  successLoop
    (fun i => (snaps i).map (fun db => fetchOrderAndItems db sid))
    successAttempts 0

/-! ## Seller sales page commit discipline (`SellerSalesPage.load`) -/

/-- The component state touched by the sales loader: the generation counter
`loadSeq`, the committed items, the error banner and the loading flag. -/
structure SalesUI where
  loadSeqCur : Nat
  items : List OrderItemRow
  error : Option String
  loading : Bool
deriving Repr, DecidableEq

/-- Start of `SellerSalesPage.load` (lines 92-95): bump the generation,
record it for this load, set loading, clear the error. -/
def salesLoadStart (s : SalesUI) : Nat × SalesUI :=
  (s.loadSeqCur + 1,
   { s with loadSeqCur := s.loadSeqCur + 1, loading := true, error := none })

/-- The success commit of the joined query (lines 152-156): guarded by both
`mounted` and the generation captured at start. -/
def salesCommitItems (seq : Nat) (mounted : Bool) (data : List OrderItemRow)
    (s : SalesUI) : SalesUI :=
  if mounted && seq == s.loadSeqCur then { s with items := data } else s

/-- The catch block of `SellerSalesPage.load` (lines 232-236): it checks
`mounted` only — not the generation — before committing the cleared items
and the error message. -/
def salesCommitCatch (mounted : Bool) (msg : String) (s : SalesUI) : SalesUI :=
  if mounted then { s with items := [], error := some msg } else s

/-- The finally block (line 238): the guard compares `loadSeq.current` with
itself, so any mounted completion clears the loading flag. -/
def salesFinally (mounted : Bool) (s : SalesUI) : SalesUI :=
  if mounted && (s.loadSeqCur == s.loadSeqCur) then { s with loading := false }
  else s

/-! ## Webhook computation lemmas -/

theorem orderRowOfSession_sid (sess : StSession) (oid : Nat) :
    (orderRowOfSession sess oid).stripe_session_id = sess.id := rfl

theorem orderRowOfSession_id (sess : StSession) (oid : Nat) :
    (orderRowOfSession sess oid).id = oid := rfl

theorem handleWebhook_verified_ok (s : String) (verify : String → Option StEvent)
    (ev : StEvent) (env : WebhookEnv) (db : Db) (hver : verify s = some ev) :
    (handleWebhook (some s) verify env db).2 = .ok := by
  simp only [handleWebhook, hver]
  by_cases hty : ev.type = "checkout.session.completed"
  · simp only [hty, if_true]
    cases hfetch : env.listLineItems ev.session.id 100 with
    | error e => rfl
    | ok lis =>
      rcases hins : db.insertOrder (orderRowOfSession ev.session) with ⟨db1, res⟩
      cases res <;> rfl
  · simp only [hty, if_false]

theorem handleWebhook_completed_fresh (s : String)
    (verify : String → Option StEvent) (ev : StEvent) (env : WebhookEnv)
    (db : Db) (lis : List StLineItem)
    (hver : verify s = some ev)
    (hty : ev.type = "checkout.session.completed")
    (hfetch : env.listLineItems ev.session.id 100 = .ok lis)
    (hfresh : db.orders.any (fun r => r.stripe_session_id = ev.session.id) = false) :
    handleWebhook (some s) verify env db
      = ({ orders := db.orders ++ [orderRowOfSession ev.session db.nextOrderId],
           order_items := db.order_items
             ++ processItems db.nextOrderId env.itemInsertFails lis 0,
           nextOrderId := db.nextOrderId + 1 }, .ok) := by
  simp only [handleWebhook, hver, hty, if_true, hfetch, Db.insertOrder,
    orderRowOfSession_sid, hfresh, Bool.false_eq_true, if_false,
    orderRowOfSession_id]

theorem handleWebhook_completed_dup (s : String)
    (verify : String → Option StEvent) (ev : StEvent) (env : WebhookEnv)
    (db : Db) (lis : List StLineItem)
    (hver : verify s = some ev)
    (hty : ev.type = "checkout.session.completed")
    (hfetch : env.listLineItems ev.session.id 100 = .ok lis)
    (hdup : db.orders.any (fun r => r.stripe_session_id = ev.session.id) = true) :
    handleWebhook (some s) verify env db = (db, .ok) := by
  simp only [handleWebhook, hver, hty, if_true, hfetch, Db.insertOrder,
    orderRowOfSession_sid, hdup, if_true]

theorem processItems_no_fail (orderId : Nat) (lis : List StLineItem) :
    ∀ k, processItems orderId (fun _ => false) lis k
      = lis.map (orderItemRowOf orderId) := by
  induction lis with
  | nil => intro k; rfl
  | cons li rest ih => intro k; simp [processItems, ih]

theorem processItems_get_mem (orderId : Nat) (itemFail : Nat → Bool)
    (lis : List StLineItem) :
    ∀ (k i : Nat) (h : i < lis.length), itemFail (k + i) = false →
      orderItemRowOf orderId (lis.get ⟨i, h⟩)
        ∈ processItems orderId itemFail lis k := by
  induction lis with
  | nil =>
    intro k i h
    simp at h
  | cons li rest ih =>
    intro k i h hok
    cases i with
    | zero =>
      have hk : itemFail k = false := by simpa using hok
      simp [processItems, hk]
    | succ j =>
      have hj : j < rest.length := by simpa using Nat.lt_of_succ_lt_succ h
      have hok' : itemFail ((k + 1) + j) = false := by
        have : k + (j + 1) = (k + 1) + j := by omega
        rwa [this] at hok
      have hmem := ih (k + 1) j hj hok'
      have hget : (li :: rest).get ⟨j + 1, h⟩ = rest.get ⟨j, hj⟩ := rfl
      rw [hget]
      cases hf : itemFail k with
      | false =>
        simp only [processItems, hf, Bool.false_eq_true, if_false]
        exact List.mem_cons_of_mem _ hmem
      | true =>
        simp only [processItems, hf, if_true]
        exact hmem

/-! ## Claim theorems: payment callback handler -/

/-- C1: delivering the same payment-completion event twice (same
`externalSessionId`) yields exactly one `orders` row for that session id;
the second delivery leaves the store untouched (neither order nor item
rows are inserted again) and is acknowledged with 200.  Uniqueness comes
from the data layer's constraint on the session id (`Db.insertOrder`). -/
theorem webhook_idempotent_delivery (s : String)
    (verify : String → Option StEvent) (ev : StEvent) (env : WebhookEnv)
    (db0 : Db) (lis : List StLineItem)
    (hver : verify s = some ev)
    (hty : ev.type = "checkout.session.completed")
    (hfetch : env.listLineItems ev.session.id 100 = .ok lis)
    (hfresh : db0.orders.any (fun r => r.stripe_session_id = ev.session.id) = false) :
    (handleWebhook (some s) verify env
        (handleWebhook (some s) verify env db0).1).1
      = (handleWebhook (some s) verify env db0).1
    ∧ (handleWebhook (some s) verify env
        (handleWebhook (some s) verify env db0).1).2 = .ok
    ∧ (handleWebhook (some s) verify env db0).1.orders.countP
        (fun r => r.stripe_session_id = ev.session.id) = 1
    ∧ (handleWebhook (some s) verify env db0).1.order_items
        = db0.order_items ++ processItems db0.nextOrderId env.itemInsertFails lis 0 := by
  have hfirst := handleWebhook_completed_fresh s verify ev env db0 lis
    hver hty hfetch hfresh
  have hzero : db0.orders.countP (fun r => r.stripe_session_id = ev.session.id) = 0 := by
    rw [List.countP_eq_zero]
    intro a ha
    have := (List.any_eq_false.mp hfresh) a ha
    simpa using this
  have hdup : ((handleWebhook (some s) verify env db0).1).orders.any
      (fun r => r.stripe_session_id = ev.session.id) = true := by
    rw [hfirst]
    simp [List.any_append, orderRowOfSession_sid]
  have hsecond := handleWebhook_completed_dup s verify ev env
    (handleWebhook (some s) verify env db0).1 lis hver hty hfetch hdup
  refine ⟨by rw [hsecond], by rw [hsecond], ?_, by rw [hfirst]⟩
  rw [hfirst]
  simp [List.countP_append, hzero, orderRowOfSession_sid]

/-- C2: the webhook responds with a non-200 status exactly when the
signature header is absent or signature verification fails; every verified
event is acknowledged with 200 whatever the processing outcome (thrown
line-item fetch, failed order insert, failed item inserts). -/
theorem webhook_ack_iff_signature (sig : Option String)
    (verify : String → Option StEvent) (env : WebhookEnv) (db : Db) :
    (handleWebhook sig verify env db).2.status ≠ 200
      ↔ (sig = none ∨ ∃ s, sig = some s ∧ verify s = none) := by
  cases sig with
  | none =>
    simp [handleWebhook, HResp.status]
  | some s =>
    cases hv : verify s with
    | none =>
      simp only [handleWebhook, hv]
      constructor
      · intro _
        exact Or.inr ⟨s, rfl, hv⟩
      · intro _
        simp [HResp.status]
    | some ev =>
      have hok := handleWebhook_verified_ok s verify ev env db hv
      rw [hok]
      constructor
      · intro h
        exact absurd (rfl : HResp.status .ok = 200) h
      · rintro (h | ⟨s', hs', hv'⟩)
        · cases h
        · cases hs'
          rw [hv] at hv'
          cases hv'

/-- C3: on a completed session, per-item insert failures are skipped
without rolling back: whatever subset of item inserts fails, the handler
still acknowledges with 200, the order row is in the store, and every line
item whose own insert succeeded has its `order_items` row. -/
theorem webhook_partial_items (s : String)
    (verify : String → Option StEvent) (ev : StEvent) (env : WebhookEnv)
    (db : Db) (lis : List StLineItem)
    (hver : verify s = some ev)
    (hty : ev.type = "checkout.session.completed")
    (hfetch : env.listLineItems ev.session.id 100 = .ok lis)
    (hfresh : db.orders.any (fun r => r.stripe_session_id = ev.session.id) = false) :
    (handleWebhook (some s) verify env db).2 = .ok
    ∧ orderRowOfSession ev.session db.nextOrderId
        ∈ (handleWebhook (some s) verify env db).1.orders
    ∧ ∀ (i : Nat) (h : i < lis.length), env.itemInsertFails i = false →
        orderItemRowOf db.nextOrderId (lis.get ⟨i, h⟩)
          ∈ (handleWebhook (some s) verify env db).1.order_items := by
  have hrun := handleWebhook_completed_fresh s verify ev env db lis
    hver hty hfetch hfresh
  refine ⟨by rw [hrun], by rw [hrun]; simp, ?_⟩
  intro i h hok
  rw [hrun]
  have := processItems_get_mem db.nextOrderId env.itemInsertFails lis 0 i h
    (by simpa using hok)
  simp only []
  exact List.mem_append_right _ this

/-- C10: the handler requests at most 100 line items per session with no
pagination; for a session holding more than 100 items, exactly the first
100 receive `order_items` rows and the remainder get none. -/
theorem webhook_line_item_cap (s : String)
    (verify : String → Option StEvent) (ev : StEvent)
    (sessionItems : String → List StLineItem) (db : Db)
    (hver : verify s = some ev)
    (hty : ev.type = "checkout.session.completed")
    (hfresh : db.orders.any (fun r => r.stripe_session_id = ev.session.id) = false)
    (hlong : 100 < (sessionItems ev.session.id).length) :
    (handleWebhook (some s) verify
        ⟨providerListLineItems sessionItems, fun _ => false⟩ db).1.order_items
      = db.order_items
        ++ ((sessionItems ev.session.id).take 100).map (orderItemRowOf db.nextOrderId)
    ∧ (((sessionItems ev.session.id).take 100).map
        (orderItemRowOf db.nextOrderId)).length = 100 := by
  have hfetch : (WebhookEnv.mk (providerListLineItems sessionItems)
      (fun _ => false)).listLineItems ev.session.id 100
      = .ok ((sessionItems ev.session.id).take 100) := rfl
  have hrun := handleWebhook_completed_fresh s verify ev
    ⟨providerListLineItems sessionItems, fun _ => false⟩ db
    ((sessionItems ev.session.id).take 100) hver hty hfetch hfresh
  constructor
  · rw [hrun]
    simp [processItems_no_fail]
  · simp [List.length_take]
    omega

/-! ## Concrete sample data for witnesses and counterexamples -/

/-- Product metadata as create-checkout-session attaches it. -/
def sampleMeta : StMetadata :=
  { product_id := some "p1", slug := some "red-mug", seller_id := some "seller-1" }

/-- An expanded provider product carrying the sample metadata. -/
def sampleProduct : StProduct :=
  { name := some "Red Mug", images := ["https://img.example/1.png"],
    metadata := sampleMeta }

/-- A line item whose metadata resolves a seller. -/
def sampleLineItem : StLineItem :=
  { quantity := some 2,
    price := some { unit_amount := some 1000, product := some sampleProduct },
    description := none }

/-- A second line item (different product, no seller in metadata). -/
def sampleLineItem2 : StLineItem :=
  { quantity := some 1,
    price := some
      { unit_amount := some 500,
        product := some
          { name := some "Blue Cup", images := [],
            metadata :=
              { product_id := some "p2", slug := some "blue-cup",
                seller_id := some "" } } },
    description := none }

/-- A completed checkout session. -/
def sampleSession : StSession :=
  { id := "cs_1", payment_intent := some "pi_1", currency := some "gbp",
    amount_total := some 2500, metadata_user_id := some "user-1",
    customer_details := none,
    shipping_details := some
      { name := some "Ada Lovelace", phone := some "+441234",
        address := some
          { line1 := some "1 High St", line2 := none, city := some "London",
            state := none, postal_code := some "E1 1AA",
            country := some "GB" } } }

/-- The corresponding verified payment-completion event. -/
def sampleEvent : StEvent :=
  { type := "checkout.session.completed", session := sampleSession }

/-- A signature verifier accepting exactly one header value. -/
def sampleVerify : String → Option StEvent :=
  fun s => if s = "sig-valid" then some sampleEvent else none

/-- An environment where the provider lists two items and no insert fails. -/
def sampleEnv : WebhookEnv :=
  { listLineItems := fun _ _ => .ok [sampleLineItem, sampleLineItem2],
    itemInsertFails := fun _ => false }

/-- An environment where the first item's insert fails. -/
def sampleEnvFail : WebhookEnv :=
  { listLineItems := fun _ _ => .ok [sampleLineItem, sampleLineItem2],
    itemInsertFails := fun i => i == 0 }

/-- The empty store. -/
def emptyDb : Db := { orders := [], order_items := [], nextOrderId := 0 }

/-- C1 witness: two concrete deliveries of the same event against the empty
store leave exactly one order row for `cs_1` and an unchanged store after
the redelivery. -/
theorem webhook_idempotent_delivery_witness :
    (handleWebhook (some "sig-valid") sampleVerify sampleEnv
        (handleWebhook (some "sig-valid") sampleVerify sampleEnv emptyDb).1).1
      = (handleWebhook (some "sig-valid") sampleVerify sampleEnv emptyDb).1
    ∧ (handleWebhook (some "sig-valid") sampleVerify sampleEnv
        (handleWebhook (some "sig-valid") sampleVerify sampleEnv emptyDb).1).2 = .ok
    ∧ (handleWebhook (some "sig-valid") sampleVerify sampleEnv emptyDb).1.orders.countP
        (fun r => r.stripe_session_id = sampleEvent.session.id) = 1
    ∧ (handleWebhook (some "sig-valid") sampleVerify sampleEnv emptyDb).1.order_items
        = emptyDb.order_items
          ++ processItems emptyDb.nextOrderId sampleEnv.itemInsertFails
              [sampleLineItem, sampleLineItem2] 0 :=
  webhook_idempotent_delivery "sig-valid" sampleVerify sampleEvent sampleEnv
    emptyDb [sampleLineItem, sampleLineItem2] (by rfl) rfl rfl rfl

/-- C3 witness: with the first item's insert failing, the handler still
acknowledges, the order row exists, and the second item's row is present. -/
theorem webhook_partial_items_witness :
    (handleWebhook (some "sig-valid") sampleVerify sampleEnvFail emptyDb).2 = .ok
    ∧ orderRowOfSession sampleEvent.session emptyDb.nextOrderId
        ∈ (handleWebhook (some "sig-valid") sampleVerify sampleEnvFail emptyDb).1.orders
    ∧ orderItemRowOf emptyDb.nextOrderId sampleLineItem2
        ∈ (handleWebhook (some "sig-valid") sampleVerify sampleEnvFail emptyDb).1.order_items := by
  have h := webhook_partial_items "sig-valid" sampleVerify sampleEvent
    sampleEnvFail emptyDb [sampleLineItem, sampleLineItem2]
    (by rfl) rfl rfl rfl
  exact ⟨h.1, h.2.1, h.2.2 1 (by decide) rfl⟩

/-- C10 witness: a session with 101 identical line items materializes
exactly the first 100 item rows. -/
theorem webhook_line_item_cap_witness :
    (handleWebhook (some "sig-valid") sampleVerify
        ⟨providerListLineItems (fun _ => List.replicate 101 sampleLineItem),
          fun _ => false⟩ emptyDb).1.order_items
      = emptyDb.order_items
        ++ (((List.replicate 101 sampleLineItem).take 100).map
            (orderItemRowOf emptyDb.nextOrderId))
    ∧ ((((List.replicate 101 sampleLineItem)).take 100).map
        (orderItemRowOf emptyDb.nextOrderId)).length = 100 := by
  have h := webhook_line_item_cap "sig-valid" sampleVerify sampleEvent
    (fun _ => List.replicate 101 sampleLineItem) emptyDb
    (by rfl) rfl rfl (by simp)
  exact h

/-! ## Claim C4: where the seller-attribution fallback actually runs -/

/-- A one-product catalog resolving the sample slug. -/
def catalogRedMug : List Product := [{ slug := "red-mug", seller_id := some "seller-1" }]

/-- A line item whose provider-side metadata has an empty (falsy) seller id
but whose slug resolves in the catalog. -/
def noSellerLineItem : StLineItem :=
  { quantity := some 1,
    price := some
      { unit_amount := some 1000,
        product := some
          { name := some "Red Mug", images := [],
            metadata :=
              { product_id := some "p1", slug := some "red-mug",
                seller_id := some "" } } },
    description := none }

/-- An environment listing only the seller-less line item. -/
def noSellerEnv : WebhookEnv :=
  { listLineItems := fun _ _ => .ok [noSellerLineItem],
    itemInsertFails := fun _ => false }

/-- C4 counterexample: the slug resolves in the catalog, yet the handler
writes a null `seller_id` for the item — the webhook performs no catalog
lookup at all, so the claimed handler-time fallback does not exist. -/
theorem webhook_no_handler_fallback_cex :
    lookupSellerBySlug catalogRedMug "red-mug" = some "seller-1"
    ∧ ((handleWebhook (some "sig-valid") sampleVerify noSellerEnv emptyDb).1.order_items.map
        (fun r => r.seller_id)) = [none] := by
  refine ⟨rfl, ?_⟩
  have hrun := handleWebhook_completed_fresh "sig-valid" sampleVerify
    sampleEvent noSellerEnv emptyDb [noSellerLineItem] rfl rfl rfl rfl
  rw [hrun]
  rfl

/-- C4 (amended): the slug-lookup fallback runs at session-creation time,
not at handler time.  An item whose cart line lacks a usable `seller_id`
but whose slug resolves in the catalog gets the resolved seller written
into the provider-side price metadata by the initiator, and the handler's
`order_items` row carries exactly the seller id recovered from that
metadata. -/
theorem attribution_fallback_at_creation (catalog : List Product) (i : Item)
    (sl sel : String) (li : StLineItem) (oid : Nat)
    (hmiss : isFalsyStr i.seller_id = true)
    (hslug : i.slug = some sl) (hsl : sl ≠ "")
    (hres : lookupSellerBySlug catalog sl = some sel) (hsel : sel ≠ "")
    (hli : (li.price.bind (fun pr => pr.product)).map (fun pr => pr.metadata)
        = some (toLineItemParams (enhanceItem catalog i)).metadata) :
    (toLineItemParams (enhanceItem catalog i)).metadata.seller_id = some sel
    ∧ (orderItemRowOf oid li).seller_id = some sel := by
  have henh : (enhanceItem catalog i).seller_id = some sel := by
    simp only [enhanceItem, hmiss, hslug, Bool.true_and]
    have : isFalsyStr (some sl) = false := by
      simpa [isFalsyStr] using hsl
    rw [this]
    simpa [hslug] using hres
  have hmeta : (toLineItemParams (enhanceItem catalog i)).metadata.seller_id
      = some sel := by
    simp [toLineItemParams, henh]
  refine ⟨hmeta, ?_⟩
  simp only [orderItemRowOf, hli, Option.getD_some]
  rw [hmeta]
  simp [hsel]

/-- A cart item sent to the initiator without a seller id. -/
def noSellerItem : Item :=
  { id := "p1", slug := some "red-mug", name := "Red Mug",
    price_cents := 1000, quantity := 1, image := none, seller_id := none }

/-- The provider line item carrying the metadata the initiator attached to
the enhanced seller-less item. -/
def enhancedLineItem : StLineItem :=
  { quantity := some 1,
    price := some
      { unit_amount := some 1000,
        product := some
          { name := some "Red Mug", images := [],
            metadata :=
              (toLineItemParams (enhanceItem catalogRedMug noSellerItem)).metadata } },
    description := none }

/-- C4 amended witness: for the concrete seller-less item, the initiator
resolves `seller-1` from the catalog into the metadata and the handler
writes it into the item row. -/
theorem attribution_fallback_at_creation_witness :
    (toLineItemParams (enhanceItem catalogRedMug noSellerItem)).metadata.seller_id
      = some "seller-1"
    ∧ (orderItemRowOf 0 enhancedLineItem).seller_id = some "seller-1" := by
  refine attribution_fallback_at_creation catalogRedMug noSellerItem "red-mug"
    "seller-1" enhancedLineItem 0 rfl rfl (by decide) rfl (by decide) ?_
  rfl

/-! ## Claim C6: initiator validation -/

/-- A cart item with a non-positive unit price. -/
def zeroPriceItem : Item :=
  { id := "p0", slug := some "zero", name := "Zero", price_cents := 0,
    quantity := 1, image := none, seller_id := some "s1" }

/-- A request body carrying only the zero-priced item. -/
def zeroPriceBody : InitBody :=
  { items := some [zeroPriceItem],
    success_url := some "https://shop.example/success",
    cancel_url := some "https://shop.example/cancel", user_id := none }

/-- C6 counterexample: a cart whose single line has `unitPriceMinorUnits = 0`
passes all of the initiator's validation and reaches the external provider
call (second component `true`), returning the provider URL instead of a
validation error — non-positive prices are not validated locally. -/
theorem initiate_zero_price_cex :
    zeroPriceItem.price_cents ≤ 0
    ∧ createCheckoutSession [] (fun _ _ => .ok (some "https://pay.example/s"))
        zeroPriceBody
      = (.okUrl (some "https://pay.example/s"), true) := by
  exact ⟨by decide, rfl⟩

/-- C6 (amended): the initiator fails with a validation error before any
external provider call whenever the cart is empty (`items` absent or an
empty array): no external checkout session is created then.  Non-positive
unit prices are not validated locally; such lines are passed to the
provider unchanged. -/
theorem initiate_empty_cart_validation (catalog : List Product)
    (createSession : List LineItemParams → Option String → Except String (Option String))
    (body : InitBody)
    (hempty : body.items = none ∨ body.items = some []) :
    createCheckoutSession catalog createSession body = (.noItems, false) := by
  rcases hempty with h | h <;> simp [createCheckoutSession, h]

/-- A request body with an empty items array. -/
def emptyCartBody : InitBody :=
  { items := some [], success_url := some "https://shop.example/success",
    cancel_url := some "https://shop.example/cancel", user_id := none }

/-- C6 amended witness: the concrete empty cart is rejected with no
provider call. -/
theorem initiate_empty_cart_validation_witness :
    createCheckoutSession [] (fun _ _ => .ok (some "https://pay.example/s"))
      emptyCartBody = (.noItems, false) :=
  initiate_empty_cart_validation [] (fun _ _ => .ok (some "https://pay.example/s"))
    emptyCartBody (Or.inr rfl)

/-! ## Claim C5: success-page polling -/

theorem successLoop_none
    (fetch : Nat → Except String (Option OrderRow × List OrderItemRow)) :
    ∀ fuel start : Nat,
      (∀ i, start ≤ i → i < start + fuel → fetch i = .ok (none, [])) →
      successLoop fetch fuel start = .stillProcessing := by
  intro fuel
  induction fuel with
  | zero => intro start _; rfl
  | succ n ih =>
    intro start h
    have h0 : fetch start = .ok (none, []) := h start (Nat.le_refl _) (by omega)
    simp only [successLoop, h0]
    exact ih (start + 1) (fun i hi1 hi2 => h i (by omega) (by omega))

theorem successLoop_found
    (fetch : Nat → Except String (Option OrderRow × List OrderItemRow))
    (o : OrderRow) (its : List OrderItemRow) :
    ∀ fuel start k : Nat, k < fuel →
      (∀ i, i < k → fetch (start + i) = .ok (none, [])) →
      fetch (start + k) = .ok (some o, its) →
      successLoop fetch fuel start = .confirmed o its := by
  intro fuel
  induction fuel with
  | zero => intro start k hk _ _; exact absurd hk (by omega)
  | succ n ih =>
    intro start k hk hbefore hit
    cases k with
    | zero =>
      have h0 : fetch start = .ok (some o, its) := by
        simpa using hit
      simp [successLoop, h0]
    | succ j =>
      have h0 : fetch start = .ok (none, []) := by
        simpa using hbefore 0 (by omega)
      simp only [successLoop, h0]
      refine ih (start + 1) j (by omega) ?_ ?_
      · intro i hi
        have := hbefore (i + 1) (by omega)
        have heq : start + (i + 1) = (start + 1) + i := by omega
        rwa [heq] at this
      · have heq : start + (j + 1) = (start + 1) + j := by omega
        rwa [heq] at hit

theorem successLoop_congr
    (f g : Nat → Except String (Option OrderRow × List OrderItemRow)) :
    ∀ fuel start : Nat,
      (∀ i, start ≤ i → i < start + fuel → f i = g i) →
      successLoop f fuel start = successLoop g fuel start := by
  intro fuel
  induction fuel with
  | zero => intro start _; rfl
  | succ n ih =>
    intro start h
    have h0 : f start = g start := h start (Nat.le_refl _) (by omega)
    simp only [successLoop, h0]
    cases hg : g start with
    | error e => rfl
    | ok pr =>
      rcases pr with ⟨oo, its⟩
      cases oo with
      | none => exact ih (start + 1) (fun i hi1 hi2 => h i (by omega) (by omega))
      | some o => rfl

/-- C5: the success-page load polls a fixed bounded number of times (the
source's 6 attempts, 1.2 s apart).  When every attempt's query completes
and never sees the order, the load ends in the still-processing state, not
an error; when some attempt sees the order (all earlier completed attempts
seeing nothing), the load returns that order together with its items
fetched in the second read of the same snapshot; and the outcome depends
only on the first 6 snapshots. -/
theorem successLoad_bounded_polling (snaps : Nat → Except String ReadDb)
    (sid : String) :
    successAttempts = 6 ∧ successDelayMs = 1200
    ∧ (∀ db : Nat → ReadDb,
        (∀ i, i < successAttempts → snaps i = .ok (db i)) →
        (∀ i, i < successAttempts → queryOrderBySession (db i) sid = none) →
        successLoad snaps sid = .stillProcessing)
    ∧ (∀ (k : Nat) (dbk : ReadDb) (o : OrderRow),
        k < successAttempts →
        snaps k = .ok dbk →
        queryOrderBySession dbk sid = some o →
        (∀ i, i < k → ∃ dbi, snaps i = .ok dbi
          ∧ queryOrderBySession dbi sid = none) →
        successLoad snaps sid = .confirmed o (queryItemsByOrder dbk o.id))
    ∧ (∀ snaps' : Nat → Except String ReadDb,
        (∀ i, i < successAttempts → snaps i = snaps' i) →
        successLoad snaps sid = successLoad snaps' sid) := by
  refine ⟨rfl, rfl, ?_, ?_, ?_⟩
  · intro db hok hnone
    refine successLoop_none _ successAttempts 0 ?_
    intro i _ hi2
    have hi : i < successAttempts := by omega
    rw [hok i hi]
    simp only [Except.map]
    rw [show fetchOrderAndItems (db i) sid = (none, []) from by
      simp [fetchOrderAndItems, hnone i hi]]
  · intro k dbk o hk hsnap hfound hbefore
    refine successLoop_found _ o (queryItemsByOrder dbk o.id)
      successAttempts 0 k hk ?_ ?_
    · intro i hi
      rcases hbefore i hi with ⟨dbi, hsi, hni⟩
      rw [Nat.zero_add, hsi]
      simp only [Except.map]
      rw [show fetchOrderAndItems dbi sid = (none, []) from by
        simp [fetchOrderAndItems, hni]]
    · rw [Nat.zero_add, hsnap]
      simp only [Except.map]
      rw [show fetchOrderAndItems dbk sid = (some o, queryItemsByOrder dbk o.id) from by
        simp [fetchOrderAndItems, hfound]]
  · intro snaps' hagree
    refine successLoop_congr _ _ successAttempts 0 ?_
    intro i _ hi2
    have hi : i < successAttempts := by omega
    rw [hagree i hi]

/-- The empty read-side store. -/
def emptyReadDb : ReadDb := { orders := [], order_items := [] }

/-- A read-side store already holding the sample order and one item row. -/
def oneOrderReadDb : ReadDb :=
  { orders := [orderRowOfSession sampleSession 0],
    order_items := [orderItemRowOf 0 sampleLineItem] }

/-- C5 witness: against a store that never shows the order the load ends
still-processing; against a store that shows it at once the load returns
the order and its items. -/
theorem successLoad_bounded_polling_witness :
    successLoad (fun _ => .ok emptyReadDb) "cs_1" = .stillProcessing
    ∧ successLoad (fun _ => .ok oneOrderReadDb) "cs_1"
      = .confirmed (orderRowOfSession sampleSession 0)
          (queryItemsByOrder oneOrderReadDb (orderRowOfSession sampleSession 0).id) := by
  constructor
  · exact (successLoad_bounded_polling (fun _ => .ok emptyReadDb) "cs_1").2.2.1
      (fun _ => emptyReadDb) (fun i _ => rfl) (fun i _ => rfl)
  · exact (successLoad_bounded_polling (fun _ => .ok oneOrderReadDb) "cs_1").2.2.2.1
      0 oneOrderReadDb (orderRowOfSession sampleSession 0) (by decide) rfl rfl
      (fun i hi => absurd hi (by omega))

/-! ## Claim C7: stale-load commit discipline of the sales page -/

/-- A committed sales row for the schedule below. -/
def sampleSalesRow : OrderItemRow :=
  { order_id := 0, product_slug := some "red-mug", title := "Red Mug",
    qty := 1, price_cents := 1000, seller_id := some "seller-1",
    image_url := none }

/-- The sales page state before any load. -/
def salesUI0 : SalesUI :=
  { loadSeqCur := 0, items := [], error := none, loading := true }

/-- Generation captured by load A. -/
def salesSeqA : Nat := (salesLoadStart salesUI0).1

/-- State after load A starts. -/
def salesStateA : SalesUI := (salesLoadStart salesUI0).2

/-- Generation captured by the later load B. -/
def salesSeqB : Nat := (salesLoadStart salesStateA).1

/-- State after load B starts. -/
def salesStateB : SalesUI := (salesLoadStart salesStateA).2

/-- State after B's successful commit of its result. -/
def salesAfterB : SalesUI :=
  salesFinally true (salesCommitItems salesSeqB true [sampleSalesRow] salesStateB)

/-- State after the stale load A then completes through the catch path
(e.g. its 12 s query timeout rejects after B already committed). -/
def salesFinal : SalesUI :=
  salesFinally true (salesCommitCatch true "Sales query timed out" salesAfterB)

/-- C7 (code bug witness): load B starts after load A and commits its rows;
the stale load A's success path would be correctly discarded by the
generation guard, but its catch path checks only `mounted`, so A's late
failure clears B's committed rows and installs A's error — the committed
state no longer reflects the newer load. -/
theorem sales_stale_catch_commits :
    salesSeqA < salesSeqB
    ∧ salesAfterB.items = [sampleSalesRow]
    ∧ salesCommitItems salesSeqA true [] salesAfterB = salesAfterB
    ∧ salesFinal.items = []
    ∧ salesFinal.error = some "Sales query timed out" := by
  exact ⟨by decide, rfl, rfl, rfl, rfl⟩

/-! ## Claims C8 and C9: cart store -/

/-- C8: adding an id already in the cart merges rather than duplicates:
the per-id line count and the cart length are unchanged, the line's
quantity becomes the sum of the previous and requested quantities, and its
metadata is the shallow merge in which the new call's keys override. -/
theorem addItem_merges (items : List CartItem) (item ℓ : CartItem)
    (qp qr : Int)
    (hfound : findLine items item.id = some ℓ)
    (hqp : ℓ.quantity = some qp) (hqr : item.quantity = some qr) :
    (addItem items item).countP (fun p => p.id = item.id)
      = items.countP (fun p => p.id = item.id)
    ∧ (addItem items item).length = items.length
    ∧ findLine (addItem items item) item.id
      = some { ℓ with
          quantity := some (qp + qr),
          meta := some (recMerge (ℓ.meta.getD []) (item.meta.getD [])) }
    ∧ ∀ k : String,
        recLookup (recMerge (ℓ.meta.getD []) (item.meta.getD [])) k
          = (recLookup (item.meta.getD []) k).orElse
              (fun _ => recLookup (ℓ.meta.getD []) k) := by
  refine ⟨addItem_countP_of_found items item ℓ hfound item.id,
    addItem_length_of_found items item ℓ hfound, ?_,
    fun k => recMerge_lookup _ _ k⟩
  have h := addItem_findLine_merge items item ℓ hfound
  rw [h, hqp, hqr]
  simp only [Option.getD_some]

/-- An existing cart line with id `X`, quantity 2 and red color metadata. -/
def cartLineX : CartItem :=
  { id := "X", name := "Mug", price_cents := 1000, quantity := some 2,
    image := none, meta := some [("color", "red")] }

/-- An add of the same id with quantity 3 and overriding metadata. -/
def cartAddX : CartItem :=
  { id := "X", name := "Mug", price_cents := 1000, quantity := some 3,
    image := none, meta := some [("color", "blue"), ("size", "L")] }

/-- C8 witness: adding quantity 2 then quantity 3 under one id leaves one
line with quantity 5 and merged metadata. -/
theorem addItem_merges_witness :
    findLine (addItem [cartLineX] cartAddX) cartAddX.id
      = some { cartLineX with
          quantity := some 5,
          meta := some (recMerge (cartLineX.meta.getD []) (cartAddX.meta.getD [])) }
    ∧ (addItem [cartLineX] cartAddX).length = 1 := by
  have h := addItem_merges [cartLineX] cartAddX cartLineX 2 3 rfl rfl rfl
  exact ⟨h.2.2.1, h.2.1⟩

/-- A new-id add requesting quantity 0. -/
def zeroQtyItem : CartItem :=
  { id := "Z", name := "Zero", price_cents := 500, quantity := some 0,
    image := none, meta := none }

/-- C9 counterexample: a new line added with requested quantity 0 is stored
with quantity 0 — not `max(1, 0) = 1` — so a line's quantity can be below 1
after an add. -/
theorem addItem_quantity_zero_cex :
    (addItem [] zeroQtyItem).map (fun p => p.quantity) = [some 0]
    ∧ ((addItem [] zeroQtyItem).map (fun p => p.quantity)
        = [some (max 1 0)] → False) := by
  exact ⟨rfl, by decide⟩

/-- C9 (amended): a new id is appended with exactly the requested quantity,
defaulting to 1 only when no quantity was given; no `max(1, ·)` coercion is
applied, so requested quantities below 1 are stored as sent. -/
theorem addItem_append_requested (items : List CartItem) (item : CartItem)
    (hnew : findLine items item.id = none) :
    addItem items item
      = items ++ [{ item with quantity := some (item.quantity.getD 1) }] :=
  addItem_findLine_new items item hnew

/-- A new-id add with no quantity given. -/
def newIdItem : CartItem :=
  { id := "N", name := "New", price_cents := 100, quantity := none,
    image := none, meta := none }

/-- C9 amended witness: an add without a quantity appends the line with
quantity 1. -/
theorem addItem_append_requested_witness :
    addItem [cartLineX] newIdItem
      = [cartLineX] ++ [{ newIdItem with quantity := some 1 }] :=
  addItem_append_requested [cartLineX] newIdItem rfl
